import Mathlib

/-!
Shallow embedding of `src/No-Trading-aportunity.py` (an RSI-crossing
trading-signal bot) and proofs about its specification claims.

Modelling conventions:
* Python floats are modelled as rationals (`ℚ`); `round(x, 2)` is modelled
  by `pyRound2` (round half to even, as Python's `round` does).
* The oscillator library `pandas_ta.rsi` is an excluded external
  collaborator: detection code takes an abstract `rsiF : List ℚ → Option
  (List ℚ)` standing for `ta.rsi` (`none` models a `None`/raising call, an
  empty list models an empty series).
* Fallible Python code is embedded in `Except PyErr`; code whose
  exceptions are all caught locally (e.g. `analyze_pair`) returns `Option`.
* Wall-clock times are rationals; `asyncio.sleep` is modelled by advancing
  the issue time of a request.
-/

namespace TB

/-- Configuration constants from the top of the module. -/
def TIMEFRAME : String := "1min"

def UPDATE_INTERVAL : ℚ := 60

def HISTORY_LENGTH : ℕ := 100

def RSI_PERIOD : ℕ := 14

def RSI_OVERBOUGHT : ℚ := 50

def RSI_OVERSOLD : ℚ := 40

def MIN_PRICE_CHANGE : ℚ := 1/2

def RATE_LIMIT : ℕ := 6

/-- Python's `round(x, 2)`: round `x` to two decimal places, ties to even. -/
def pyRound2 (x : ℚ) : ℚ :=
  let y : ℚ := x * 100
  let f : ℤ := y.floor
  let r : ℤ :=
    if y - f < 1/2 then f
    else if y - f > 1/2 then f + 1
    else if f % 2 = 0 then f else f + 1
  (r : ℚ) / 100

/-- The `signal` variable of `analyze_pair`: `"CALL"`, `"PUT"` or
(`signal or 'None'`) the string `"None"`. -/
inductive Signal where
  | call
  | put
  | noSignal
deriving DecidableEq

/-- Lines 149–154: `signal = None; if current_rsi <= RSI_OVERSOLD and
previous_rsi > RSI_OVERSOLD: signal = "CALL" elif current_rsi >=
RSI_OVERBOUGHT and previous_rsi < RSI_OVERBOUGHT: signal = "PUT"`. -/
def classifySignal (current_rsi previous_rsi : ℚ) : Signal :=
  if current_rsi ≤ RSI_OVERSOLD ∧ previous_rsi > RSI_OVERSOLD then .call
  else if current_rsi ≥ RSI_OVERBOUGHT ∧ previous_rsi < RSI_OVERBOUGHT then .put
  else .noSignal

/-- Modelled from the spec: the classification rule exactly as the spec
words it — `Call` if `current ≤ oversoldThreshold` and `previous >
oversoldThreshold`; `Put` if `current ≥ overboughtThreshold` and
`previous < overboughtThreshold`; otherwise `None`. -/
def specClassify (current previous : ℚ) : Signal :=
  if current ≤ RSI_OVERSOLD ∧ previous > RSI_OVERSOLD then .call
  else if current ≥ RSI_OVERBOUGHT ∧ previous < RSI_OVERBOUGHT then .put
  else .noSignal

/-- Line 143: `current_rsi = round(rsi.iloc[-1], 2)`. -/
def currentRsiOf (rsi : List ℚ) : ℚ := pyRound2 (rsi.getLastD 0)

/-- Line 144: `previous_rsi = round(rsi.iloc[-2], 2) if len(rsi) > 1 else
current_rsi`. -/
def previousRsiOf (rsi : List ℚ) : ℚ :=
  if rsi.length > 1 then pyRound2 (rsi.getD (rsi.length - 2) 0)
  else currentRsiOf rsi

/-- The dictionary returned by `analyze_pair` (lines 157–163); the
wall-clock `timestamp` field is outside the model. -/
structure Analysis where
  signal : Signal
  price : ℚ
  rsi : ℚ
  timeframe : String
deriving DecidableEq

/-- `analyze_pair` (lines 131–167), with `self.price_history[pair]['close']`
passed explicitly as `close_prices` and `ta.rsi` abstracted as `rsiF`.
The body's `try`/`except` catches every exception and returns `None`; the
one statement in the body that can raise in this model is the percentage
price change (line 147), which raises `ZeroDivisionError` when
`close_prices[-2] == 0`. -/
def analyze_pair (rsiF : List ℚ → Option (List ℚ)) (close_prices : List ℚ) :
    Option Analysis :=
  if close_prices.length < RSI_PERIOD + 1 then none
  else
    match rsiF close_prices with
    | none => none
    | some rsi =>
      if rsi = [] then none
      else
        let current_rsi := currentRsiOf rsi
        let previous_rsi := previousRsiOf rsi
        let current_price := close_prices.getLastD 0
        let prev_close := close_prices.getD (close_prices.length - 2) 0
        if close_prices.length > 1 ∧ prev_close = 0 then none
        else
          let price_change : ℚ :=
            if close_prices.length > 1 then
              |(current_price - prev_close) / prev_close * 100| else 0
          some { signal := classifySignal current_rsi previous_rsi
                 price := current_price
                 rsi := current_rsi
                 timeframe := TIMEFRAME }

/-! ## The provider response and `api_request` (lines 58–91) -/

/-- One bar of the `"values"` array of a time-series payload.  A field is
`none` when the key is absent from the JSON object (so that reading it
raises `KeyError`); the closing price is modelled already parsed.  -/
structure Bar where
  close? : Option ℚ
  datetime? : Option String
deriving DecidableEq

/-- The JSON object of a provider response, restricted to the keys the
program reads: an optional application-level `code` (with its `message`)
and the optional `values` array of bars. -/
structure ApiData where
  code? : Option ℤ
  message? : Option String
  values? : Option (List Bar)
deriving DecidableEq

/-- Outcome of the underlying HTTP call: a timeout, some other network
exception, or a response with a status and (when the body parses as JSON)
a payload. -/
inductive HttpResult where
  | timeout
  | netError (msg : String)
  | response (status : ℕ) (body? : Option ApiData)
deriving DecidableEq

/-- Python exceptions that can escape `get_market_data` in this model. -/
inductive PyErr where
  | indexError
  | keyErrorClose
  | keyErrorDatetime
deriving DecidableEq

/-- `api_request` (lines 58–91), restricted to its response handling: the
whole body is inside `try`/`except`, so a timeout, a network error or a
non-JSON body yields `None`; a non-200 status yields `None`; an embedded
`code != 200` yields `None`; otherwise the payload is returned.  (The
rate-limit wait at lines 60–65 only delays the request and is modelled
separately by `rateStep`.) -/
def api_request : HttpResult → Option ApiData
  | .timeout => none
  | .netError _ => none
  | .response status body? =>
    if status ≠ 200 then none
    else
      match body? with
      | none => none
      | some data =>
        match data.code? with
        | some c => if c ≠ 200 then none else some data
        | none => some data

/-! ## The history store and `get_market_data` (lines 93–129) -/

/-- Lines 124–126: `append(price)` then `pop(0)` when the capacity is
exceeded. -/
def appendClose (hist : List ℚ) (price : ℚ) : List ℚ :=
  let h' := hist ++ [price]
  if h'.length > HISTORY_LENGTH then h'.tail else h'

/-- Line 119: the comprehension `[float(bar["close"]) for bar in bs]`,
raising `KeyError` at the first bar without a `close` field. -/
def extractCloses : List Bar → Except PyErr (List ℚ)
  | [] => .ok []
  | b :: bs =>
    match b.close? with
    | none => .error .keyErrorClose
    | some c =>
      match extractCloses bs with
      | .error e => .error e
      | .ok cs => .ok (c :: cs)

/-- `get_market_data` (lines 93–129) with the mutable
`self.price_history[pair]["close"]` passed in and returned explicitly.
Returns the new history together with the `{"close": price, ...}` result
(`none` models the `return None` no-data outcome); a `.error` models a
Python exception escaping the function (there is no `try` in
`get_market_data` below the `api_request` call). -/
def get_market_data (history : Bool) (hist : List ℚ) (r : HttpResult) :
    Except PyErr (List ℚ × Option (ℚ × String)) :=
  match api_request r with
  | none => .ok (hist, none)
  | some data =>
    match data.values? with
    | none => .ok (hist, none)
    | some bars =>
      match bars with
      | [] => .error .indexError
      | latest_bar :: _ =>
        match latest_bar.close? with
        | none => .error .keyErrorClose
        | some price =>
          match latest_bar.datetime? with
          | none => .error .keyErrorDatetime
          | some ts =>
            if history then
              match extractCloses bars.reverse with
              | .error e => .error e
              | .ok closes => .ok (closes, some (price, ts))
            else
              .ok (appendClose hist price, some (price, ts))

/-! ## The rate limiter (lines 39–40 and 58–73) -/

/-- The rate-limiter state: `self.last_api_call` (initially `0`) and
`self.api_calls` (initially `0`). -/
structure RateState where
  last_api_call : ℚ
  api_calls : ℕ
deriving DecidableEq

/-- Lines 60–65 and 72–73 of `api_request`: a request arriving at `now`
waits for `60 - (now - last_api_call)` seconds (and then resets the
counter) when the counter has reached `RATE_LIMIT` within 60 seconds of
the last call; afterwards `last_api_call` is set to the issue time and
the counter incremented.  Returns the new state and the time at which the
request is issued (requests are modelled as instantaneous). -/
def rateStep (s : RateState) (now : ℚ) : RateState × ℚ :=
  if now - s.last_api_call < 60 ∧ s.api_calls ≥ RATE_LIMIT then
    let issue := s.last_api_call + 60
    ({ last_api_call := issue, api_calls := 0 + 1 }, issue)
  else
    ({ last_api_call := now, api_calls := s.api_calls + 1 }, now)

/-- Sequential requests with the given arrival times; returns the issue
times (one per request — none is dropped) and the final state. -/
def runRequests (s : RateState) : List ℚ → List ℚ × RateState
  | [] => ([], s)
  | now :: rest =>
    let r := rateStep s now
    let rr := runRequests r.1 rest
    (r.2 :: rr.1, rr.2)

/-! ## History mutations (claim C3) -/

/-- The two mutations of `price_history[pair]["close"]`: the wholesale
seed of line 120 and the rolling append of lines 124–126. -/
inductive Mutation where
  | seed (batch : List ℚ)
  | append (price : ℚ)
deriving DecidableEq

/-- Apply one mutation to a history. -/
def applyMutation (hist : List ℚ) : Mutation → List ℚ
  | .seed batch => batch
  | .append price => appendClose hist price

/-- Apply a sequence of mutations, oldest first. -/
def applyMutations (hist : List ℚ) (ms : List Mutation) : List ℚ :=
  ms.foldl applyMutation hist

/-! ## Notification and the cycle loop (lines 169–239) -/

/-- The two message shapes of `send_signal` (lines 211–230). -/
inductive Message where
  | noOpportunity (pair : String) (rsi price : ℚ)
  | signalAlert (signal : Signal) (pair : String) (rsi price : ℚ)
      (timeframe : String)
deriving DecidableEq

/-- `send_signal` (lines 211–230): format the message for an analysis
(the delivery `try`/`except` swallows transport failures, so dispatch
never raises). -/
def send_signal (analysis : Analysis) (pair : String) : Message :=
  if analysis.signal = .noSignal then
    .noOpportunity pair analysis.rsi analysis.price
  else
    .signalAlert analysis.signal pair analysis.rsi analysis.price
      analysis.timeframe

/-- Lines 182–202, the steady-cycle body for one pair: fetch the latest
bar (updating the history), and when data arrived and analysis produced a
result, dispatch exactly one message.  Returns the new history and the
dispatched message, or the exception that escaped `get_market_data`.
The RSI-info print block (lines 186–196, output only, with its own
`try`/`except`) and the observability-only `last_prediction` map update
(lines 201–202) are outside the model. -/
def pairBody (rsiF : List ℚ → Option (List ℚ)) (r : HttpResult)
    (hist : List ℚ) (pair : String) :
    Except PyErr (List ℚ × Option (Analysis × Message)) :=
  match get_market_data false hist r with
  | .error e => .error e
  | .ok (h, none) => .ok (h, none)
  | .ok (h, some _) =>
    match analyze_pair rsiF h with
    | none => .ok (h, none)
    | some analysis => .ok (h, some (analysis, send_signal analysis pair))

/-- Lines 181–202: the `for pair in TRADING_PAIRS` loop runs inside the
cycle's `try`, so it processes pairs in order and stops at the first
exception.  Returns the per-pair results that completed and the escaped
exception, if any. -/
def runPairs {α β ε : Type} (step : α → Except ε β) :
    List α → List (α × β) × Option ε
  | [] => ([], none)
  | p :: ps =>
    match step p with
    | .error e => ([], some e)
    | .ok b =>
      let rest := runPairs step ps
      ((p, b) :: rest.1, rest.2)

/-- Lines 178–209: one iteration of `while self.running`: the whole cycle
body is inside `try`/`except`, so an exception is caught and followed by
`asyncio.sleep(5)` instead of the normal `asyncio.sleep(UPDATE_INTERVAL)`.
Returns the completed per-pair results and the sleep that follows; it
never propagates an exception. -/
def cycleIteration {α β ε : Type} (step : α → Except ε β)
    (pairs : List α) : List (α × β) × ℚ :=
  let r := runPairs step pairs
  (r.1, if r.2.isSome then 5 else UPDATE_INTERVAL)

/-! ## Concrete inputs used by counterexamples and witnesses -/

/-- A bar lacking its `close` field. -/
def malformedBar : Bar :=
  { close? := none, datetime? := some "2024-01-01 00:00:00" }

/-- A well-formed bar closing at 2. -/
def goodBar : Bar :=
  { close? := some 2, datetime? := some "2024-01-01 00:01:00" }

/-- A success response whose single bar lacks its `close` field. -/
def respMalformed : HttpResult :=
  .response 200
    (some { code? := none, message? := none, values? := some [malformedBar] })

/-- A success response with one well-formed bar closing at 2. -/
def respGood : HttpResult :=
  .response 200
    (some { code? := none, message? := none, values? := some [goodBar] })

/-- A cycle in which the provider sends the malformed payload for
`"EUR/USD"` and the well-formed one for every other pair. -/
def envTwoPairs : String → HttpResult :=
  fun pair => if pair = "EUR/USD" then respMalformed else respGood

/-- The steady-cycle body for `envTwoPairs`, every pair starting from a
15-sample history of closes at 1 and an oscillator reading of (45, 39). -/
def stepTwoPairs : String → Except PyErr (List ℚ × Option (Analysis × Message)) :=
  fun pair =>
    pairBody (fun _ => some [45, 39]) (envTwoPairs pair)
      (List.replicate 15 1) pair

/-- The analysis produced by a plateau oscillator reading `(45, 45)` after
a fetch closing at 2. -/
def plateauAnalysis : Analysis :=
  { signal := .noSignal, price := 2, rsi := 45, timeframe := TIMEFRAME }

/-- A success payload carrying only an embedded error code. -/
def notFoundPayload : ApiData :=
  { code? := some 404, message? := some "not found", values? := none }

/-- A well-formed bar closing at 1. -/
def seedBar : Bar :=
  { close? := some 1, datetime? := some "2024-01-01 00:00:00" }

/-- A newest-first seed batch of 100 well-formed bars. -/
def seedBars : List Bar := List.replicate 100 seedBar

/-- A success payload carrying the 100-bar seed batch. -/
def seedPayload : ApiData :=
  { code? := none, message? := none, values? := some seedBars }

/-- The success response carrying the 100-bar seed batch. -/
def seedResp : HttpResult := .response 200 (some seedPayload)

/-! # Theorems -/

theorem classifySignal_eq_specClassify (c p : ℚ) :
    classifySignal c p = specClassify c p := rfl

/-- When its preconditions hold, `analyze_pair` succeeds and returns the
crossing classification together with the latest price. -/
theorem analyze_pair_eq_some (rsiF : List ℚ → Option (List ℚ))
    (closes rsi : List ℚ)
    (h15 : RSI_PERIOD + 1 ≤ closes.length)
    (hr : rsiF closes = some rsi) (hne : rsi ≠ [])
    (hz : closes.getD (closes.length - 2) 0 ≠ 0) :
    analyze_pair rsiF closes =
      some { signal := classifySignal (currentRsiOf rsi) (previousRsiOf rsi)
             price := closes.getLastD 0
             rsi := currentRsiOf rsi
             timeframe := TIMEFRAME } := by
  unfold analyze_pair
  rw [hr, if_neg (by omega)]
  dsimp only
  rw [if_neg hne, if_neg (by intro h; exact hz h.2)]

/-- When `analyze_pair` returns an analysis, its signal is the crossing
classification of the rounded last two oscillator values. -/
theorem analyze_pair_signal (rsiF : List ℚ → Option (List ℚ))
    (closes rsi : List ℚ) (a : Analysis)
    (hr : rsiF closes = some rsi)
    (ha : analyze_pair rsiF closes = some a) :
    a.signal = classifySignal (currentRsiOf rsi) (previousRsiOf rsi) := by
  by_cases h15 : closes.length < RSI_PERIOD + 1
  · rw [analyze_pair, hr, if_pos h15] at ha
    exact absurd ha (by simp)
  · by_cases hne : rsi = []
    · rw [analyze_pair, hr, if_neg h15] at ha
      dsimp only at ha
      rw [if_pos hne] at ha
      exact absurd ha (by simp)
    · by_cases hz : closes.getD (closes.length - 2) 0 = 0
      · rw [analyze_pair, hr, if_neg h15] at ha
        dsimp only at ha
        rw [if_neg hne,
          if_pos (⟨by simp only [RSI_PERIOD] at h15; omega, hz⟩ :
            closes.length > 1 ∧
            closes.getD (closes.length - 2) 0 = 0)] at ha
        exact absurd ha (by simp)
      · have h2 := analyze_pair_eq_some rsiF closes rsi (by omega) hr hne hz
        rw [ha] at h2
        rw [Option.some_inj.mp h2]

/-- C1: for every history with at least `RSI_PERIOD + 1` samples on which
the oscillator and the price change are defined, the detector emits
exactly the spec's crossing classification of the rounded pair
(current, previous): `Call` iff `current ≤ 40 < previous`, `Put` iff
`current ≥ 50 > previous`, otherwise `None` — in particular a plateau
already beyond a threshold (e.g. both readings 35) yields `None`. -/
theorem C1_crossing_classification (rsiF : List ℚ → Option (List ℚ))
    (closes rsi : List ℚ)
    (h15 : RSI_PERIOD + 1 ≤ closes.length)
    (hr : rsiF closes = some rsi) (hne : rsi ≠ [])
    (hz : closes.getD (closes.length - 2) 0 ≠ 0) :
    (analyze_pair rsiF closes).map Analysis.signal =
      some (specClassify (currentRsiOf rsi) (previousRsiOf rsi)) := by
  rw [analyze_pair_eq_some rsiF closes rsi h15 hr hne hz]
  rfl

/-- Witness for C1: a 15-sample history whose oscillator pair is
`(previous, current) = (41, 39)` crosses down into oversold territory
and is classified `Call`; the plateau pair `(35, 35)` is classified
`None`. -/
theorem C1_crossing_classification_witness :
    (analyze_pair (fun _ => some [41, 39]) (List.replicate 15 1)).map
      Analysis.signal = some (specClassify (currentRsiOf [41, 39])
        (previousRsiOf [41, 39])) ∧
    specClassify (currentRsiOf [41, 39]) (previousRsiOf [41, 39]) =
      .call ∧
    specClassify 35 35 = .noSignal := by
  refine ⟨C1_crossing_classification (fun _ => some [41, 39])
    (List.replicate 15 1) [41, 39] (by with_unfolding_all decide) rfl
    (by with_unfolding_all decide) (by with_unfolding_all decide), ?_, ?_⟩
  · with_unfolding_all decide
  · with_unfolding_all decide

/-- C6: a history holding `RSI_PERIOD` or fewer closes always makes
`analyze_pair` return the insufficient-data outcome `none` (it never
reaches the oscillator computation, so it cannot crash). -/
theorem C6_insufficient_data (rsiF : List ℚ → Option (List ℚ))
    (closes : List ℚ) (h : closes.length ≤ RSI_PERIOD) :
    analyze_pair rsiF closes = none := by
  rw [analyze_pair, if_pos (Nat.lt_succ_of_le h)]

/-- Witness for C6: a 14-sample history yields `none`, for any
oscillator outcome. -/
theorem C6_insufficient_data_witness :
    (List.replicate 14 (1:ℚ)).length ≤ RSI_PERIOD ∧
    analyze_pair (fun _ => some [41, 39]) (List.replicate 14 (1:ℚ)) =
      none :=
  ⟨by with_unfolding_all decide,
   C6_insufficient_data (fun _ => some [41, 39])
     (List.replicate 14 (1:ℚ)) (by with_unfolding_all decide)⟩

/-- C8: the emitted signal is a function of the rounded (current,
previous) oscillator pair alone: two successful analyses over any two
histories and oscillator outcomes with equal rounded pairs emit the same
signal, whatever their price changes. -/
theorem C8_signal_ignores_price_change
    (rsiF₁ rsiF₂ : List ℚ → Option (List ℚ))
    (closes₁ closes₂ rsi₁ rsi₂ : List ℚ) (a₁ a₂ : Analysis)
    (hr₁ : rsiF₁ closes₁ = some rsi₁) (hr₂ : rsiF₂ closes₂ = some rsi₂)
    (ha₁ : analyze_pair rsiF₁ closes₁ = some a₁)
    (ha₂ : analyze_pair rsiF₂ closes₂ = some a₂)
    (hcur : currentRsiOf rsi₁ = currentRsiOf rsi₂)
    (hprev : previousRsiOf rsi₁ = previousRsiOf rsi₂) :
    a₁.signal = a₂.signal := by
  rw [analyze_pair_signal rsiF₁ closes₁ rsi₁ a₁ hr₁ ha₁,
    analyze_pair_signal rsiF₂ closes₂ rsi₂ a₂ hr₂ ha₂, hcur, hprev]

/-- Witness for C8: two histories whose last price change differs (0%
versus 100%) but whose oscillator pair is the same `(45, 39)` both emit
`Call`. -/
theorem C8_signal_ignores_price_change_witness :
    analyze_pair (fun _ => some [45, 39]) (List.replicate 15 1) =
      some { signal := .call, price := 1, rsi := 39,
             timeframe := TIMEFRAME } ∧
    analyze_pair (fun _ => some [45, 39]) (List.replicate 14 1 ++ [2]) =
      some { signal := .call, price := 2, rsi := 39,
             timeframe := TIMEFRAME } ∧
    ({ signal := .call, price := 1, rsi := 39,
       timeframe := TIMEFRAME } : Analysis).signal =
      ({ signal := .call, price := 2, rsi := 39,
         timeframe := TIMEFRAME } : Analysis).signal := by
  refine ⟨by with_unfolding_all decide, by with_unfolding_all decide, ?_⟩
  exact C8_signal_ignores_price_change (fun _ => some [45, 39])
    (fun _ => some [45, 39]) (List.replicate 15 1)
    (List.replicate 14 1 ++ [2]) [45, 39] [45, 39] _ _ rfl rfl
    (by with_unfolding_all decide) (by with_unfolding_all decide) rfl rfl

/-- C9: in a steady cycle, whenever the fetch returns data and the
analysis returns a result, exactly one message is dispatched for the
pair — for any signal, including `None`, in which case it is the
"No Trading Opportunity" message. -/
theorem C9_notification_even_when_no_signal
    (rsiF : List ℚ → Option (List ℚ)) (r : HttpResult)
    (hist h : List ℚ) (pair : String) (price : ℚ) (ts : String)
    (a : Analysis)
    (hf : get_market_data false hist r = .ok (h, some (price, ts)))
    (ha : analyze_pair rsiF h = some a) :
    pairBody rsiF r hist pair = .ok (h, some (a, send_signal a pair)) ∧
    (a.signal = .noSignal →
      send_signal a pair = .noOpportunity pair a.rsi a.price) := by
  constructor
  · rw [pairBody, hf]
    dsimp only
    rw [ha]
  · intro hs
    rw [send_signal, if_pos hs]

/-- Witness for C9: a successful fetch appending a close of 2 and an
oscillator plateau `(45, 45)` yield a `None` signal, and the dispatched
message is the no-opportunity one. -/
theorem C9_notification_even_when_no_signal_witness :
    pairBody (fun _ => some [45, 45]) respGood (List.replicate 15 1)
        "EUR/USD" =
      .ok (List.replicate 15 1 ++ [2],
        some (plateauAnalysis, send_signal plateauAnalysis "EUR/USD")) ∧
    (plateauAnalysis.signal = .noSignal →
      send_signal plateauAnalysis "EUR/USD" =
        .noOpportunity "EUR/USD" plateauAnalysis.rsi
          plateauAnalysis.price) :=
  C9_notification_even_when_no_signal (fun _ => some [45, 45]) respGood
    (List.replicate 15 1) (List.replicate 15 1 ++ [2]) "EUR/USD" 2
    "2024-01-01 00:01:00" plateauAnalysis
    (by with_unfolding_all rfl) (by with_unfolding_all decide)

/-- C10: when the fetch fails with the no-data outcome (the request
returned nothing, or the payload has no `values` key), the pair's history
is unchanged and the cycle body neither analyzes nor notifies that pair. -/
theorem C10_fetch_failure_skips_pair
    (rsiF : List ℚ → Option (List ℚ)) (r : HttpResult) (hist : List ℚ)
    (pair : String)
    (h : api_request r = none ∨
      ∃ d, api_request r = some d ∧ d.values? = none) :
    get_market_data false hist r = .ok (hist, none) ∧
    pairBody rsiF r hist pair = .ok (hist, none) := by
  have hg : get_market_data false hist r = .ok (hist, none) := by
    rcases h with h | ⟨d, hd, hv⟩
    · rw [get_market_data, h]
    · rw [get_market_data, hd]
      dsimp only
      rw [hv]
  exact ⟨hg, by rw [pairBody, hg]⟩

/-- Witness for C10: a timed-out request leaves the history unchanged and
produces no notification. -/
theorem C10_fetch_failure_skips_pair_witness :
    get_market_data false (List.replicate 15 (1:ℚ)) .timeout =
      .ok (List.replicate 15 (1:ℚ), none) ∧
    pairBody (fun _ => some [45, 39]) .timeout
        (List.replicate 15 (1:ℚ)) "EUR/USD" =
      .ok (List.replicate 15 (1:ℚ), none) :=
  C10_fetch_failure_skips_pair (fun _ => some [45, 39]) .timeout
    (List.replicate 15 (1:ℚ)) "EUR/USD" (Or.inl rfl)

/-- C4 counterexample: a success response whose single bar lacks its
`close` field makes `get_market_data` raise a `KeyError` out of the fetch
instead of returning the no-data outcome `None`. -/
theorem C4_counterexample_keyerror_escapes :
    get_market_data false [] respMalformed = .error .keyErrorClose ∧
    get_market_data true [] respMalformed = .error .keyErrorClose := by
  constructor
  · with_unfolding_all rfl
  · with_unfolding_all rfl

/-- C4 (amended): a timeout, a network error, a non-success status, an
embedded application error code or a payload without the `values` key
all yield the no-data outcome `None` from the fetch without an exception
(and leave the history untouched); only bar-level malformation (an empty
`values` array or a bar missing a field) escapes as an exception. -/
theorem C4_fetch_failure_no_data (history : Bool) (hist : List ℚ)
    (r : HttpResult)
    (h : api_request r = none ∨
      ∃ d, api_request r = some d ∧ d.values? = none) :
    get_market_data history hist r = .ok (hist, none) ∧
    api_request .timeout = none ∧
    (∀ m, api_request (.netError m) = none) ∧
    (∀ s b, s ≠ 200 → api_request (.response s b) = none) ∧
    (∀ d c, d.code? = some c → c ≠ 200 →
      api_request (.response 200 (some d)) = none) := by
  refine ⟨?_, rfl, fun m => rfl, ?_, ?_⟩
  · rcases h with h | ⟨d, hd, hv⟩
    · rw [get_market_data, h]
    · rw [get_market_data, hd]
      dsimp only
      rw [hv]
  · intro s b hs
    simp only [api_request]
    rw [if_pos hs]
  · intro d c hc h200
    simp only [api_request]
    rw [if_neg (by simp), hc]
    dsimp only
    rw [if_pos h200]

/-- Witness for C4 (amended): instantiated at a payload whose embedded
error code is 404 and `values` key is absent. -/
theorem C4_fetch_failure_no_data_witness :
    get_market_data false (List.replicate 15 (1:ℚ))
        (.response 200 (some notFoundPayload)) =
      .ok (List.replicate 15 (1:ℚ), none) ∧
    api_request .timeout = none ∧
    (∀ m, api_request (.netError m) = none) ∧
    (∀ s b, s ≠ 200 → api_request (.response s b) = none) ∧
    (∀ d c, d.code? = some c → c ≠ 200 →
      api_request (.response 200 (some d)) = none) :=
  C4_fetch_failure_no_data false (List.replicate 15 (1:ℚ))
    (.response 200 (some notFoundPayload))
    (Or.inl (by with_unfolding_all rfl))

/-- Every arrival gets exactly one issue time: none is dropped. -/
theorem runRequests_length (s : RateState) (arrivals : List ℚ) :
    ((runRequests s arrivals).1).length = arrivals.length := by
  induction arrivals generalizing s with
  | nil => rfl
  | cons now rest ih => simp [runRequests, ih]

/-- C2 counterexample: with the window started at time 0 and
`RATE_LIMIT` calls recorded, a request arriving at time 61 — more than
60 seconds after the window started — does not reset the counter to 0:
the counter becomes `RATE_LIMIT + 1`, and as a consequence the very next
request, arriving at time 62 as the only other request of its window, is
delayed until time 121 instead of being issued immediately. -/
theorem C2_counterexample_no_reset :
    (rateStep { last_api_call := 0, api_calls := RATE_LIMIT } 61).1.api_calls
        = RATE_LIMIT + 1 ∧
    (rateStep (rateStep { last_api_call := 0, api_calls := RATE_LIMIT }
        61).1 62).2 = 121 := by
  with_unfolding_all decide

/-- C2 (amended): no request is ever dropped — every arrival gets exactly
one issue time; `RATE_LIMIT + 1` simultaneous requests at time `t` from
the initial state issue the first `RATE_LIMIT` immediately and delay the
last exactly to `t + 60` (the last call time plus 60 seconds); but a
request arriving once 60 seconds have elapsed since the last call is
issued immediately with the counter incremented, never reset. -/
theorem C2_rate_limiter_amended (s : RateState) (arrivals : List ℚ)
    (t now : ℚ) (helapsed : 60 ≤ now - s.last_api_call) :
    ((runRequests s arrivals).1).length = arrivals.length ∧
    (runRequests { last_api_call := 0, api_calls := 0 }
        (List.replicate (RATE_LIMIT + 1) t)).1 =
      [t, t, t, t, t, t, t + 60] ∧
    rateStep s now =
      ({ last_api_call := now, api_calls := s.api_calls + 1 }, now) := by
  refine ⟨runRequests_length s arrivals, ?_, ?_⟩
  · have hrep : List.replicate (RATE_LIMIT + 1) t = [t, t, t, t, t, t, t]
      := rfl
    rw [hrep]
    norm_num [runRequests, rateStep, RATE_LIMIT, sub_self]
  · rw [rateStep, if_neg (fun hc => absurd helapsed (not_le.mpr hc.1))]

/-- Witness for C2 (amended): the trace of seven simultaneous arrivals
at time 0, and the no-reset step for a request at time 60 from a
saturated window started at 0. -/
theorem C2_rate_limiter_amended_witness :
    ((runRequests { last_api_call := 0, api_calls := RATE_LIMIT }
        []).1).length = ([] : List ℚ).length ∧
    (runRequests { last_api_call := 0, api_calls := 0 }
        (List.replicate (RATE_LIMIT + 1) 0)).1 =
      [0, 0, 0, 0, 0, 0, (0:ℚ) + 60] ∧
    rateStep { last_api_call := 0, api_calls := RATE_LIMIT } 60 =
      ({ last_api_call := 60, api_calls := RATE_LIMIT + 1 }, 60) :=
  C2_rate_limiter_amended { last_api_call := 0, api_calls := RATE_LIMIT }
    [] 0 60 (by with_unfolding_all decide)

/-- One append keeps the history within capacity. -/
theorem appendClose_length_le (hist : List ℚ) (p : ℚ)
    (h : hist.length ≤ HISTORY_LENGTH) :
    (appendClose hist p).length ≤ HISTORY_LENGTH := by
  rw [appendClose]
  split
  · simpa using h
  · next hgt =>
    simp only [List.length_append, List.length_singleton] at hgt ⊢
    omega

/-- `applyMutations` unfolds one mutation at a time. -/
theorem applyMutations_cons (init : List ℚ) (m : Mutation)
    (ms : List Mutation) :
    applyMutations init (m :: ms) =
      applyMutations (applyMutation init m) ms := rfl

/-- Any mutation sequence whose seeds are provider batches (at most
`HISTORY_LENGTH` bars) keeps the history within capacity. -/
theorem applyMutations_length_le (init : List ℚ) (ms : List Mutation)
    (hinit : init.length ≤ HISTORY_LENGTH)
    (hseeds : ∀ b, Mutation.seed b ∈ ms → b.length ≤ HISTORY_LENGTH) :
    (applyMutations init ms).length ≤ HISTORY_LENGTH := by
  induction ms generalizing init with
  | nil => exact hinit
  | cons m ms ih =>
    rw [applyMutations_cons]
    refine ih (applyMutation init m) ?_
      (fun b hb => hseeds b (List.mem_cons_of_mem m hb))
    cases m with
    | seed batch => exact hseeds batch (List.mem_cons_self _ _)
    | append p => exact appendClose_length_le init p hinit

/-- Appending `k` closes to a full history drops exactly the `k` oldest
elements and preserves the order of the rest. -/
theorem applyMutations_append_full (full ps : List ℚ)
    (hfull : full.length = HISTORY_LENGTH) :
    applyMutations full (ps.map Mutation.append) =
      (full ++ ps).drop ps.length := by
  induction ps generalizing full with
  | nil => simp [applyMutations]
  | cons p ps ih =>
    have hfe : full ≠ [] := by
      intro h0
      rw [h0] at hfull
      simp [HISTORY_LENGTH] at hfull
    have h1 : applyMutation full (.append p) = full.tail ++ [p] := by
      show appendClose full p = full.tail ++ [p]
      rw [appendClose]
      rw [if_pos (by simp [hfull, HISTORY_LENGTH])]
      cases full with
      | nil => exact absurd rfl hfe
      | cons x xs => simp
    have h2 : (full.tail ++ [p]).length = HISTORY_LENGTH := by
      simp only [List.length_append, List.length_tail,
        List.length_singleton]
      simp only [HISTORY_LENGTH] at hfull ⊢
      omega
    rw [List.map_cons, applyMutations_cons, h1, ih (full.tail ++ [p]) h2]
    have h3 : full.tail ++ [p] ++ ps = (full ++ (p :: ps)).drop 1 := by
      cases full with
      | nil => exact absurd rfl hfe
      | cons x xs => simp
    rw [h3, List.drop_drop]
    simp [Nat.add_comm]

/-- C3: starting from any in-capacity history, any sequence of provider
seeds and appends keeps the history within `HISTORY_LENGTH`; and
appending `k` closes to a full history yields the last `HISTORY_LENGTH`
elements of the concatenation — the `k` oldest elements are gone and the
relative order of the rest (oldest to newest) is preserved. -/
theorem C3_history_bounded_fifo (init full ps : List ℚ)
    (ms : List Mutation)
    (hinit : init.length ≤ HISTORY_LENGTH)
    (hseeds : ∀ b, Mutation.seed b ∈ ms → b.length ≤ HISTORY_LENGTH)
    (hfull : full.length = HISTORY_LENGTH) :
    (applyMutations init ms).length ≤ HISTORY_LENGTH ∧
    applyMutations full (ps.map Mutation.append) =
      (full ++ ps).drop ps.length :=
  ⟨applyMutations_length_le init ms hinit hseeds,
   applyMutations_append_full full ps hfull⟩

/-- Witness for C3: a seed of two closes followed by one append stays in
capacity, and two appends onto a full 100-close history drop its two
oldest closes. -/
theorem C3_history_bounded_fifo_witness :
    (applyMutations []
        [Mutation.seed [1, 2], Mutation.append 3]).length ≤
      HISTORY_LENGTH ∧
    applyMutations (List.replicate 100 (0:ℚ))
        (([5, 6] : List ℚ).map Mutation.append) =
      (List.replicate 100 (0:ℚ) ++ [5, 6]).drop
        ([5, 6] : List ℚ).length :=
  C3_history_bounded_fifo [] (List.replicate 100 (0:ℚ)) [5, 6]
    [Mutation.seed [1, 2], Mutation.append 3]
    (by with_unfolding_all decide)
    (by
      intro b hb
      simp only [List.mem_cons, List.not_mem_nil, or_false] at hb
      rcases hb with hb | hb
      · injection hb with hb
        subst hb
        with_unfolding_all decide
      · exact absurd hb (by simp))
    (by with_unfolding_all decide)

/-- C5 counterexample: with two pairs to process and the provider
serving `"EUR/USD"` a bar without its `close` field, the `KeyError` for
`"EUR/USD"` aborts the cycle's `for` loop before `"USD/JPY"` is
processed, even though processing `"USD/JPY"` on its own would have
succeeded. -/
theorem C5_counterexample_exception_skips_rest :
    (runPairs stepTwoPairs ["EUR/USD", "USD/JPY"]).1.map Prod.fst =
      [] ∧
    (runPairs stepTwoPairs ["EUR/USD", "USD/JPY"]).2 =
      some PyErr.keyErrorClose ∧
    (stepTwoPairs "USD/JPY").toOption.isSome = true := by
  refine ⟨?_, ?_, ?_⟩ <;> with_unfolding_all rfl

/-- C5 (amended): an exception while processing one instrument aborts
the rest of that cycle — exactly the instruments before the faulting one
are processed, those after it are skipped — and the cycle's top-level
handler catches the exception and schedules the 5-second cooldown
instead of the normal interval, so the loop itself never crashes. -/
theorem C5_exception_aborts_cycle_caught {α β ε : Type}
    (step : α → Except ε β) (pairs₁ pairs₂ : List α) (p : α) (e : ε)
    (hp : step p = .error e)
    (hok : ∀ q ∈ pairs₁, ∃ b, step q = .ok b) :
    (runPairs step (pairs₁ ++ p :: pairs₂)).1.map Prod.fst = pairs₁ ∧
    (runPairs step (pairs₁ ++ p :: pairs₂)).2 = some e ∧
    cycleIteration step (pairs₁ ++ p :: pairs₂) =
      ((runPairs step (pairs₁ ++ p :: pairs₂)).1, 5) := by
  have key : ∀ l1 : List α, (∀ q ∈ l1, ∃ b, step q = .ok b) →
      (runPairs step (l1 ++ p :: pairs₂)).1.map Prod.fst = l1 ∧
      (runPairs step (l1 ++ p :: pairs₂)).2 = some e := by
    intro l1 hok1
    induction l1 with
    | nil => simp [runPairs, hp]
    | cons q qs ih =>
      obtain ⟨b, hb⟩ := hok1 q (List.mem_cons_self _ _)
      have ih2 := ih (fun q hq => hok1 q (List.mem_cons_of_mem _ hq))
      simp only [List.cons_append, runPairs, hb]
      simp [ih2.1, ih2.2]
  obtain ⟨h1, h2⟩ := key pairs₁ hok
  refine ⟨h1, h2, ?_⟩
  rw [cycleIteration]
  rw [h2]
  simp

/-- Witness for C5 (amended): the two-pair cycle with the malformed
first pair, instantiated with an empty prefix of healthy pairs. -/
theorem C5_exception_aborts_cycle_caught_witness :
    (runPairs stepTwoPairs ([] ++ "EUR/USD" :: ["USD/JPY"])).1.map
      Prod.fst = [] ∧
    (runPairs stepTwoPairs ([] ++ "EUR/USD" :: ["USD/JPY"])).2 =
      some PyErr.keyErrorClose ∧
    cycleIteration stepTwoPairs ([] ++ "EUR/USD" :: ["USD/JPY"]) =
      ((runPairs stepTwoPairs ([] ++ "EUR/USD" :: ["USD/JPY"])).1, 5) :=
  C5_exception_aborts_cycle_caught stepTwoPairs [] ["USD/JPY"]
    "EUR/USD" PyErr.keyErrorClose (by with_unfolding_all rfl)
    (fun q hq => absurd hq (List.not_mem_nil q))

/-- Extracting closes succeeds on a batch whose bars all carry a close,
and returns exactly those closes. -/
theorem extractCloses_of_map (l : List Bar) (cs : List ℚ)
    (h : l.map Bar.close? = cs.map some) :
    extractCloses l = .ok cs := by
  induction l generalizing cs with
  | nil =>
    cases cs with
    | nil => rfl
    | cons c cs => simp at h
  | cons b bs ih =>
    cases cs with
    | nil => simp at h
    | cons c cs =>
      simp only [List.map_cons, List.cons.injEq] at h
      simp only [extractCloses, h.1, ih cs h.2]

/-- C7: seeding from a well-formed newest-first batch of 100 bars stores
exactly the batch's closes in reversed (chronological) order, of length
exactly 100, and returns the newest bar's close and timestamp. -/
theorem C7_seeding_reverses_batch (r : HttpResult) (d : ApiData)
    (b0 : Bar) (bars rest : List Bar) (cs : List ℚ) (p0 : ℚ)
    (ts0 : String) (hist : List ℚ)
    (hreq : api_request r = some d) (hv : d.values? = some bars)
    (hbars : bars = b0 :: rest) (hc0 : b0.close? = some p0)
    (ht0 : b0.datetime? = some ts0)
    (hcs : bars.map Bar.close? = cs.map some)
    (h100 : bars.length = 100) :
    get_market_data true hist r = .ok (cs.reverse, some (p0, ts0)) ∧
    cs.reverse.length = 100 := by
  have hrev : extractCloses bars.reverse = .ok cs.reverse := by
    apply extractCloses_of_map
    rw [List.map_reverse, hcs, List.map_reverse]
  have hlen : cs.length = 100 := by
    have hmap := congrArg List.length hcs
    simp only [List.length_map] at hmap
    omega
  subst hbars
  constructor
  · simp only [get_market_data, hreq, hv, hc0, ht0, if_true, hrev]
  · simp [hlen]

/-- Witness for C7: the 100-bar batch of closes at 1 seeds a
100-element chronological history. -/
theorem C7_seeding_reverses_batch_witness :
    get_market_data true [] seedResp =
      .ok ((List.replicate 100 (1:ℚ)).reverse,
        some (1, "2024-01-01 00:00:00")) ∧
    (List.replicate 100 (1:ℚ)).reverse.length = 100 :=
  C7_seeding_reverses_batch seedResp seedPayload seedBar seedBars
    (List.replicate 99 seedBar) (List.replicate 100 (1:ℚ)) 1
    "2024-01-01 00:00:00" [] (by with_unfolding_all rfl) rfl
    (by with_unfolding_all rfl) rfl rfl (by with_unfolding_all decide)
    (by with_unfolding_all decide)

end TB
